import Mathlib

/-!
Shallow embedding of the rusty-nail controller (src/manager.rs, src/state.rs).

The controller watches `NooBaaSource` custom resources.  Its `reconcile`
function updates the shared in-memory `State`, computes a status document
from the spec, applies it via a status patch, conditionally publishes a
domain event, updates metrics, and returns a requeue action.  `error_policy`
maps any reconcile error to a fixed-delay requeue.  `Manager::new` performs a
bounded list call before starting the controller loop.  `state.rs` holds the
legacy reflector/poll component whose background thread exits the process on
a poll error.

External, non-deterministic effects (the clock, the elapsed-time measurement,
and the results of the two fallible network calls: the status patch and the
event publish) are passed in explicitly through `ReconcileEnv`; the function
returns the updated state, the updated metrics, the list of status documents
sent to `patch_status`, and the list of events handed to `Recorder::publish`.
Timestamps are modelled as natural numbers; the `f64` duration value
`elapsed_millis / 1000.0` observed into the histogram is modelled as the
rational `elapsedMillis / 1000`.
-/

namespace RustyNail

/-- Model of Rust `str::contains(pat)`: `pat` occurs as a contiguous
substring of `hay`.  Since a valid UTF-8 sequence can only occur inside
another string at character boundaries, byte-level substring search
coincides with infix search on the character list. -/
def strContains (hay pat : String) : Bool :=
  decide (pat.data <:+: hay.data)

/-- Source defines the event source (manager.rs lines 30-41). -/
structure Source where
  rpc_url : String
  rpc_secret : String
  bucket : String
deriving DecidableEq, Repr

/-- KReference contains enough information to refer to a Sink
(manager.rs lines 45-66). -/
structure KReference where
  kind : String
  «namespace» : Option String
  name : String
  api_version : Option String
  group : Option String
deriving DecidableEq, Repr

/-- Destination represents a target of an invocation over HTTP
(manager.rs lines 70-77). -/
structure Destination where
  reference : Option KReference
  uri : Option String
deriving DecidableEq, Repr

/-- CloudEventOverrides (manager.rs lines 82-87); the Rust
`HashMap<String, String>` is modelled as an association list. -/
structure CloudEventOverrides where
  extensions : List (String × String)
deriving DecidableEq, Repr

/-- NooBaa Knative Source custom resource spec (manager.rs lines 93-99). -/
structure NooBaaSourceSpec where
  name : String
  source : Source
  sink : Destination
  ce_overrides : Option CloudEventOverrides
deriving DecidableEq, Repr

/-- Status sub-document produced by reconciliation (manager.rs lines 102-105). -/
structure NooBaaSourceStatus where
  is_bad : Bool
deriving DecidableEq, Repr

/-- Kubernetes object metadata relevant to the controller: the `#[kube(...)]`
derive on `NooBaaSourceSpec` declares the resource namespaced, so
`ResourceExt::name` yields the metadata name and `ResourceExt::namespace`
an optional namespace. -/
structure ObjectMeta where
  name : String
  «namespace» : Option String
deriving DecidableEq, Repr

/-- A NooBaaSource instance as seen by `reconcile`: metadata, author-supplied
spec, and the (possibly absent) current status. -/
structure NooBaaSource where
  metadata : ObjectMeta
  spec : NooBaaSourceSpec
  status : Option NooBaaSourceStatus
deriving DecidableEq, Repr

/-- Model of the underlying `kube::Error` transport/storage cause, carried
as an abstract message. -/
def KubeErr : Type := String
deriving DecidableEq, Repr

/-- Modelled from the spec: the crate-root `Error` type (the crate's lib.rs
is not under src/; manager.rs only uses the constructor `Error::KubeError`,
wrapping the underlying kube error, and the spec says reconcile failures
surface as a typed error carrying the underlying transport/storage cause). -/
inductive Error where
  | KubeError (cause : KubeErr)
deriving DecidableEq, Repr

/-- Event type accepted by the event sink (kube runtime `EventType`). -/
inductive EventType where
  | Normal
  | Warning
deriving DecidableEq, Repr

/-- Reference to a secondary object in an event (k8s `ObjectReference`);
`reconcile` always passes `None`, so the fields are irrelevant here. -/
structure ObjectReference where
  name : Option String
  «namespace» : Option String
deriving DecidableEq, Repr

/-- A domain event as handed to `Recorder::publish` (manager.rs lines 159-165). -/
structure Event where
  type_ : EventType
  reason : String
  note : Option String
  action : String
  secondary : Option ObjectReference
deriving DecidableEq, Repr

/-- In-memory reconciler state (manager.rs lines 218-223).  `last_event`
is a `DateTime<Utc>`, modelled as a natural-number timestamp. -/
structure State where
  last_event : Nat
  reporter : String
deriving DecidableEq, Repr

/-- State::new (manager.rs lines 225-230): `last_event = Utc::now()` at
construction time (the construction instant is passed in). -/
def State.new (now : Nat) : State :=
  { last_event := now, reporter := "noobaa-source-controller" }

/-- Prometheus metrics (manager.rs lines 195-198): a monotone counter of
handled events and a histogram of reconcile durations in seconds, modelled
as the counter value and the list of observed values. -/
structure Metrics where
  handled_events : Nat
  reconcile_duration : List ℚ
deriving DecidableEq, Repr

/-- The action returned by reconcile or the error policy: requeue after the
given number of seconds, or not at all. -/
structure ReconcilerAction where
  requeue_after : Option Nat
deriving DecidableEq, Repr

/-- External inputs consumed by one `reconcile` call: the wall clock read
by `Utc::now()`, the elapsed milliseconds measured at the end, and the
results of the two fallible awaited calls. -/
structure ReconcileEnv where
  now : Nat
  elapsedMillis : Nat
  patchResult : Except KubeErr Unit
  publishResult : Except KubeErr Unit
deriving Repr

/-- How one `reconcile` call ends: a panic (the namespace `.expect`), a
successful return of an action, or a typed error. -/
inductive ReconcileOutcome where
  | panicked (msg : String)
  | ok (action : ReconcilerAction)
  | err (e : Error)
deriving DecidableEq, Repr

/-- Everything observable about one `reconcile` call: its outcome, the
shared state and metrics after the call, the status documents sent to
`patch_status`, and the events handed to `Recorder::publish`. -/
structure ReconcileResult where
  outcome : ReconcileOutcome
  state : State
  metrics : Metrics
  patchAttempts : List NooBaaSourceStatus
  publishedEvents : List Event
deriving DecidableEq, Repr

/-- The event published for a "bad" source (manager.rs lines 159-165);
`name` is the instance's metadata name. -/
def badEvent (name : String) : Event :=
  { type_ := EventType.Normal
    reason := "BadNooBaaSource"
    note := some ("Sending `" ++ name ++ "` to detention")
    action := "Correcting"
    secondary := none }

/-- Embedding of `reconcile` (manager.rs lines 119-185), step by step:
set `state.last_event = Utc::now()`; take the metadata name; `.expect` the
namespace (panic when absent); compute the new status with
`is_bad = spec.name.contains("bad")`; send it to `patch_status` and
propagate a patch error as `Error::KubeError`; when the spec name contains
"bad", publish one event and propagate a publish error as
`Error::KubeError`; observe the elapsed duration into the histogram,
increment the handled-events counter, and return requeue-after
`3600 / 2` seconds. -/
def reconcile (src : NooBaaSource) (env : ReconcileEnv) (st : State)
    (m : Metrics) : ReconcileResult :=
  let st1 : State := { st with last_event := env.now }
  let name := src.metadata.name
  match src.metadata.«namespace» with
  | none =>
      { outcome := ReconcileOutcome.panicked "NooBaaSource is namespaced"
        state := st1, metrics := m, patchAttempts := [], publishedEvents := [] }
  | some _ns =>
      let newStatus : NooBaaSourceStatus :=
        { is_bad := strContains src.spec.name "bad" }
      match env.patchResult with
      | Except.error e =>
          { outcome := ReconcileOutcome.err (Error.KubeError e)
            state := st1, metrics := m, patchAttempts := [newStatus]
            publishedEvents := [] }
      | Except.ok _ =>
          if strContains src.spec.name "bad" then
            match env.publishResult with
            | Except.error e =>
                { outcome := ReconcileOutcome.err (Error.KubeError e)
                  state := st1, metrics := m, patchAttempts := [newStatus]
                  publishedEvents := [badEvent name] }
            | Except.ok _ =>
                { outcome := ReconcileOutcome.ok
                    { requeue_after := some (3600 / 2) }
                  state := st1
                  metrics :=
                    { handled_events := m.handled_events + 1
                      reconcile_duration := m.reconcile_duration ++
                        [(env.elapsedMillis : ℚ) / 1000] }
                  patchAttempts := [newStatus]
                  publishedEvents := [badEvent name] }
          else
            { outcome := ReconcileOutcome.ok
                { requeue_after := some (3600 / 2) }
              state := st1
              metrics :=
                { handled_events := m.handled_events + 1
                  reconcile_duration := m.reconcile_duration ++
                    [(env.elapsedMillis : ℚ) / 1000] }
              patchAttempts := [newStatus]
              publishedEvents := [] }

/-- Embedding of `error_policy` (manager.rs lines 186-191): any error maps
to requeue-after 360 seconds. -/
def error_policy (_error : Error) : ReconcilerAction :=
  { requeue_after := some 360 }

/-- Observable bootstrap actions performed by `Manager::new`
(manager.rs lines 246-271). -/
inductive BootAction where
  | listCall (limit : Nat)
  | startController
deriving DecidableEq, Repr

/-- How `Manager::new` ends: a fatal `.expect` panic with its message, or a
running manager whose controller future has been constructed. -/
inductive ManagerInit where
  | fatal (msg : String)
  | started
deriving DecidableEq, Repr

/-- External inputs consumed by `Manager::new`: the result of
`Client::try_default()` and the result of the bounded list call. -/
structure ManagerEnv where
  clientResult : Except KubeErr Unit
  listResult : Except KubeErr Unit
deriving Repr

/-- The remediation hint in the `.expect` guarding the bounded list call
(manager.rs line 261). -/
def crdHint : String :=
  "is the crd installed? please run: cargo run --bin crdgen | kubectl apply -f -"

/-- Embedding of `Manager::new` (manager.rs lines 246-271): create the
client (`.expect("create client")`), perform a list call with
`ListParams::default().limit(1)` guarded by the CRD remediation hint, and
only then construct and start the controller.  The second component is the
ordered trace of bootstrap actions performed. -/
def managerNew (env : ManagerEnv) : ManagerInit × List BootAction :=
  match env.clientResult with
  | Except.error _ => (ManagerInit.fatal "create client", [])
  | Except.ok _ =>
      match env.listResult with
      | Except.error _ =>
          (ManagerInit.fatal crdHint, [BootAction.listCall 1])
      | Except.ok _ =>
          (ManagerInit.started,
            [BootAction.listCall 1, BootAction.startController])

/-- Outcome of running the legacy poll thread of state.rs against a finite
prefix of poll results: still running, or the whole process exited with the
given code. -/
inductive LoopOutcome where
  | running
  | exited (code : Nat)
deriving DecidableEq, Repr

/-- Embedding of the background poll loop in `init` (state.rs lines 75-89),
run against a finite prefix of `State::poll` results: an `Ok` iteration
logs and continues; the first `Err` iteration calls
`std::process::exit(1)`, terminating the whole process. -/
def pollLoop : List (Except String Unit) → LoopOutcome
  | [] => LoopOutcome.running
  | Except.ok _ :: rest => pollLoop rest
  | Except.error _ :: _ => LoopOutcome.exited 1

/-! Concrete sample data used by witnesses and counterexamples. -/

/-- A sample source descriptor. -/
def sampleSource : Source :=
  { rpc_url := "wss://noobaa-mgmt:443", rpc_secret := "noobaa-admin", bucket := "first.bucket" }

/-- A sample sink descriptor. -/
def sampleSink : Destination :=
  { reference := none, uri := some "http://event-display.default.svc" }

/-- Build a spec with the given logical name. -/
def mkSpec (n : String) : NooBaaSourceSpec :=
  { name := n, source := sampleSource, sink := sampleSink, ce_overrides := none }

/-- Build a namespaced instance with the given metadata name, spec name and
status. -/
def mkSrc (metaName n : String) (st : Option NooBaaSourceStatus) : NooBaaSource :=
  { metadata := { name := metaName, «namespace» := some "default" }
    spec := mkSpec n
    status := st }

/-- Initial shared state for the samples. -/
def st0 : State := State.new 0

/-- Fresh metrics for the samples. -/
def m0 : Metrics := { handled_events := 0, reconcile_duration := [] }

/-- Environment in which both network calls succeed. -/
def envOk : ReconcileEnv :=
  { now := 5, elapsedMillis := 0, patchResult := Except.ok ()
    publishResult := Except.ok () }

/-- Environment in which the status patch fails. -/
def envPatchFail : ReconcileEnv :=
  { now := 5, elapsedMillis := 0, patchResult := Except.error "boom"
    publishResult := Except.ok () }

/-- Environment in which the patch succeeds but the event publish fails. -/
def envPublishFail : ReconcileEnv :=
  { now := 5, elapsedMillis := 0, patchResult := Except.ok ()
    publishResult := Except.error "sink down" }

/-! Theorems about the embedded program. -/

/-- C1: for every instance that carries a namespace, the status that
reconcile sends to `patch_status` has `is_bad = true` iff the instance's
`spec.name` contains the substring "bad" (characterised independently as a
contiguous-sublist occurrence); in particular `"badger"` classifies as bad
(substring, not word-boundary match) and `"good-source-1"` does not. -/
theorem reconcile_is_bad_iff_name_contains_bad
    (src : NooBaaSource) (env : ReconcileEnv) (st : State) (m : Metrics)
    (ns : String) (hns : src.metadata.«namespace» = some ns) :
    (reconcile src env st m).patchAttempts =
      [{ is_bad := strContains src.spec.name "bad" }] ∧
    (strContains src.spec.name "bad" = true ↔ "bad".data <:+: src.spec.name.data) ∧
    strContains "badger" "bad" = true ∧
    strContains "good-source-1" "bad" = false := by
  refine ⟨?_, by simp [strContains], by decide, by decide⟩
  rcases src with ⟨⟨nm, nsopt⟩, sp, stt⟩
  rcases env with ⟨now, em, pr, pubr⟩
  simp only [ObjectMeta.mk.injEq] at hns ⊢
  cases nsopt with
  | none => cases hns
  | some ns' =>
      cases pr <;> cases pubr <;> by_cases hb : strContains sp.name "bad" <;>
        simp [reconcile, hb]

/-- C1 witness: the theorem instantiated at a concrete namespaced instance
whose spec name is "badger". -/
theorem reconcile_is_bad_iff_name_contains_bad_w :
    (reconcile (mkSrc "badger" "badger" none) envOk st0 m0).patchAttempts =
      [{ is_bad := strContains "badger" "bad" }] ∧
    (strContains "badger" "bad" = true ↔ "bad".data <:+: "badger".data) ∧
    strContains "badger" "bad" = true ∧
    strContains "good-source-1" "bad" = false :=
  reconcile_is_bad_iff_name_contains_bad (mkSrc "badger" "badger" none)
    envOk st0 m0 "default" rfl

/-- C2 counterexample: a reconcile invocation on a "bad"-named instance in
which the status patch fails computes a status with `is_bad = true` yet
publishes no event, so "an event is published iff the computed status is
`is_bad = true`" is false over all reconcile invocations. -/
theorem reconcile_event_iff_bad_cex :
    (reconcile (mkSrc "bad-source-1" "bad-source-1" none) envPatchFail st0
        m0).patchAttempts = [{ is_bad := true }] ∧
    (reconcile (mkSrc "bad-source-1" "bad-source-1" none) envPatchFail st0
        m0).publishedEvents = [] ∧
    (reconcile (mkSrc "bad-source-1" "bad-source-1" none) envPatchFail st0
        m0).outcome = ReconcileOutcome.err (Error.KubeError "boom") :=
  ⟨rfl, rfl, rfl⟩

/-- C2 amended: for every namespaced instance, exactly one event (the
fixed bad-source event naming the instance) is handed to the recorder iff
the computed status is `is_bad = true` and the status patch succeeded;
no event is ever published when `is_bad = false`, and never more than one
event per reconcile. -/
theorem reconcile_event_iff_bad_and_patch_ok
    (src : NooBaaSource) (env : ReconcileEnv) (st : State) (m : Metrics)
    (ns : String) (hns : src.metadata.«namespace» = some ns) :
    ((reconcile src env st m).publishedEvents = [badEvent src.metadata.name] ↔
      (strContains src.spec.name "bad" = true ∧
        env.patchResult = Except.ok ())) ∧
    (strContains src.spec.name "bad" = false →
      (reconcile src env st m).publishedEvents = []) ∧
    (reconcile src env st m).publishedEvents.length ≤ 1 := by
  rcases src with ⟨⟨nm, nsopt⟩, sp, stt⟩
  rcases env with ⟨now, em, pr, pubr⟩
  cases nsopt with
  | none => cases hns
  | some ns' =>
      cases pr with
      | error e =>
          by_cases hb : strContains sp.name "bad" <;> simp [reconcile, hb]
      | ok u =>
          cases u
          cases pubr <;> by_cases hb : strContains sp.name "bad" <;>
            simp [reconcile, hb]

/-- C2 witness: the amended theorem instantiated at a "bad"-named instance
whose patch succeeds; the forward direction yields the single event. -/
theorem reconcile_event_iff_bad_and_patch_ok_w :
    (reconcile (mkSrc "bad-source-1" "bad-source-1" none) envOk st0
        m0).publishedEvents = [badEvent "bad-source-1"] :=
  (reconcile_event_iff_bad_and_patch_ok (mkSrc "bad-source-1" "bad-source-1" none)
      envOk st0 m0 "default" rfl).1.mpr ⟨rfl, rfl⟩

/-- C3: every successful reconcile returns requeue-after 1800 seconds, and
`error_policy` returns requeue-after 360 seconds for every error. -/
theorem reconcile_requeue_contract
    (src : NooBaaSource) (env : ReconcileEnv) (st : State) (m : Metrics)
    (a : ReconcilerAction) (e : Error)
    (h : (reconcile src env st m).outcome = ReconcileOutcome.ok a) :
    a.requeue_after = some 1800 ∧
    (error_policy e).requeue_after = some 360 := by
  refine ⟨?_, rfl⟩
  rcases src with ⟨⟨nm, nsopt⟩, sp, stt⟩
  rcases env with ⟨now, em, pr, pubr⟩
  cases nsopt <;> cases pr <;> cases pubr <;>
    by_cases hb : strContains sp.name "bad" <;>
    simp [reconcile, hb] at h <;> simp [← h]

/-- C3 witness: the theorem instantiated at a concrete successful
reconcile and a concrete error. -/
theorem reconcile_requeue_contract_w :
    ({ requeue_after := some 1800 } : ReconcilerAction).requeue_after =
      some 1800 ∧
    (error_policy (Error.KubeError "x")).requeue_after = some 360 :=
  reconcile_requeue_contract (mkSrc "g" "good-source-1" none) envOk st0 m0
    { requeue_after := some 1800 } (Error.KubeError "x") rfl

/-- C4 counterexample: a reconcile invocation that fails at the status
patch leaves the metrics untouched (no histogram observation, counter not
incremented), so "the metrics are mutated at the end of every reconcile,
whether it succeeds or fails" is false. -/
theorem reconcile_metrics_always_cex :
    (reconcile (mkSrc "bad-source-1" "bad-source-1" none) envPatchFail st0
        m0).outcome = ReconcileOutcome.err (Error.KubeError "boom") ∧
    (reconcile (mkSrc "bad-source-1" "bad-source-1" none) envPatchFail st0
        m0).metrics = m0 :=
  ⟨rfl, rfl⟩

/-- C4 amended: the metrics are mutated exactly by the successful
reconciles: a reconcile that returns the success action records one
histogram observation and increments the handled-events counter by one,
while a reconcile that panics or returns an error leaves the metrics
unchanged. -/
theorem reconcile_metrics_iff_success
    (src : NooBaaSource) (env : ReconcileEnv) (st : State) (m : Metrics) :
    ((∃ a, (reconcile src env st m).outcome = ReconcileOutcome.ok a) →
      (reconcile src env st m).metrics =
        { handled_events := m.handled_events + 1
          reconcile_duration := m.reconcile_duration ++
            [(env.elapsedMillis : ℚ) / 1000] }) ∧
    ((∀ a, (reconcile src env st m).outcome ≠ ReconcileOutcome.ok a) →
      (reconcile src env st m).metrics = m) := by
  rcases src with ⟨⟨nm, nsopt⟩, sp, stt⟩
  rcases env with ⟨now, em, pr, pubr⟩
  cases nsopt <;> cases pr <;> cases pubr <;>
    by_cases hb : strContains sp.name "bad" <;>
    simp [reconcile, hb]

/-- C4 witness: the amended theorem instantiated at a concrete successful
reconcile. -/
theorem reconcile_metrics_iff_success_w :
    (reconcile (mkSrc "g" "good-source-1" none) envOk st0 m0).metrics =
      { handled_events := m0.handled_events + 1
        reconcile_duration := m0.reconcile_duration ++
          [(envOk.elapsedMillis : ℚ) / 1000] } :=
  (reconcile_metrics_iff_success (mkSrc "g" "good-source-1" none) envOk st0
      m0).1 ⟨{ requeue_after := some 1800 }, rfl⟩

/-- C5: every reconcile invocation — panicking, failing or succeeding —
leaves the shared state with `last_event` set to the time read at the
start of the call, and leaves the reporter identity unchanged. -/
theorem reconcile_updates_last_event
    (src : NooBaaSource) (env : ReconcileEnv) (st : State) (m : Metrics) :
    (reconcile src env st m).state = { st with last_event := env.now } := by
  rcases src with ⟨⟨nm, nsopt⟩, sp, stt⟩
  rcases env with ⟨now, em, pr, pubr⟩
  cases nsopt <;> cases pr <;> cases pubr <;>
    by_cases hb : strContains sp.name "bad" <;>
    simp [reconcile, hb]

/-- C6: reconcile never reads the instance's existing status: two
instances with equal metadata and equal spec (and arbitrary, possibly
absent, statuses) produce identical reconcile results — in particular the
identical status document and the identical event-emission decision — and
the status document sent to `patch_status` depends only on the spec, not
on the environment, shared state or metrics. -/
theorem reconcile_pure_in_spec
    (src1 src2 : NooBaaSource) (envA envB : ReconcileEnv)
    (stA stB : State) (mA mB : Metrics)
    (hm : src1.metadata = src2.metadata) (hs : src1.spec = src2.spec) :
    reconcile src1 envA stA mA = reconcile src2 envA stA mA ∧
    (src1.metadata.«namespace».isSome = true →
      (reconcile src1 envA stA mA).patchAttempts =
        (reconcile src2 envB stB mB).patchAttempts) := by
  rcases src1 with ⟨m1, sp1, s1⟩
  rcases src2 with ⟨m2', sp2, s2⟩
  dsimp only at hm hs
  subst hm; subst hs
  refine ⟨rfl, ?_⟩
  rcases m1 with ⟨nm, nsopt⟩
  rcases envA with ⟨nowA, emA, prA, pubrA⟩
  rcases envB with ⟨nowB, emB, prB, pubrB⟩
  cases nsopt with
  | none => simp
  | some ns =>
      intro _
      cases prA <;> cases prB <;> cases pubrA <;> cases pubrB <;>
        by_cases hb : strContains sp1.name "bad" <;>
        simp [reconcile, hb]

/-- C6 witness: the theorem instantiated at two concrete instances that
differ only in their status and at two different environments. -/
theorem reconcile_pure_in_spec_w :
    reconcile (mkSrc "s" "bad-source-1" none) envOk st0 m0 =
      reconcile (mkSrc "s" "bad-source-1" (some { is_bad := false })) envOk
        st0 m0 :=
  (reconcile_pure_in_spec (mkSrc "s" "bad-source-1" none)
      (mkSrc "s" "bad-source-1" (some { is_bad := false })) envOk
      envPatchFail st0 st0 m0 m0 rfl rfl).1

/-- C7: for a namespaced instance, a failing status patch — and likewise a
failing event publish on a "bad"-named instance — makes reconcile return
the typed error `Error::KubeError` carrying the underlying cause, and in
those cases no success action (requeue-after 1800s) is returned. -/
theorem reconcile_propagates_failures
    (src : NooBaaSource) (env : ReconcileEnv) (st : State) (m : Metrics)
    (ns : String) (e : KubeErr)
    (hns : src.metadata.«namespace» = some ns) :
    (env.patchResult = Except.error e →
      (reconcile src env st m).outcome =
        ReconcileOutcome.err (Error.KubeError e) ∧
      ∀ a, (reconcile src env st m).outcome ≠ ReconcileOutcome.ok a) ∧
    (env.patchResult = Except.ok () → env.publishResult = Except.error e →
      strContains src.spec.name "bad" = true →
      (reconcile src env st m).outcome =
        ReconcileOutcome.err (Error.KubeError e) ∧
      ∀ a, (reconcile src env st m).outcome ≠ ReconcileOutcome.ok a) := by
  rcases src with ⟨⟨nm, nsopt⟩, sp, stt⟩
  rcases env with ⟨now, em, pr, pubr⟩
  cases nsopt with
  | none => cases hns
  | some ns' =>
      cases pr <;> cases pubr <;>
        by_cases hb : strContains sp.name "bad" <;>
        simp [reconcile, hb]

/-- C7 witness: the theorem instantiated at a concrete patch failure. -/
theorem reconcile_propagates_failures_w :
    (reconcile (mkSrc "b" "bad-source-1" none) envPatchFail st0 m0).outcome =
      ReconcileOutcome.err (Error.KubeError "boom") :=
  ((reconcile_propagates_failures (mkSrc "b" "bad-source-1" none)
      envPatchFail st0 m0 "default" "boom" rfl).1 rfl).1

/-- C8: once the client exists, Manager initialization performs the
bounded list call with page size 1; when it fails, initialization ends
fatally with the CRD remediation hint and the controller is never started,
and when it succeeds, the trace is exactly the list call followed by the
controller start — so the list call always precedes any watch. -/
theorem managerNew_startup_gate (env : ManagerEnv) (e : KubeErr)
    (hc : env.clientResult = Except.ok ()) :
    (env.listResult = Except.error e →
      managerNew env = (ManagerInit.fatal crdHint, [BootAction.listCall 1]) ∧
      BootAction.startController ∉ (managerNew env).2) ∧
    (env.listResult = Except.ok () →
      (managerNew env).2 =
        [BootAction.listCall 1, BootAction.startController]) := by
  rcases env with ⟨cr, lr⟩
  dsimp only at hc
  subst hc
  cases lr <;> simp [managerNew]

/-- C8 witness: the theorem instantiated at a failing list call. -/
theorem managerNew_startup_gate_w :
    managerNew { clientResult := Except.ok (), listResult := Except.error "no crd" } =
      (ManagerInit.fatal crdHint, [BootAction.listCall 1]) :=
  ((managerNew_startup_gate
      { clientResult := Except.ok (), listResult := Except.error "no crd" }
      "no crd" rfl).1 rfl).1

/-- C9: the legacy poll thread of state.rs terminates the whole process
with exit code 1 exactly when some poll iteration returns an error; no
other outcome than running or exit code 1 is possible. -/
theorem pollLoop_exits_process_iff_error (rs : List (Except String Unit)) :
    pollLoop rs = LoopOutcome.exited 1 ↔ ∃ msg, Except.error msg ∈ rs := by
  induction rs with
  | nil => simp [pollLoop]
  | cons r rest ih =>
      cases r with
      | ok u => simp [pollLoop, ih]
      | error msg => simp [pollLoop]

/-- C10: reconcile assumes the instance is namespaced: when the namespace
is absent it panics with the assertion message "NooBaaSource is
namespaced" instead of returning a typed error, and when a namespace is
present the panic branch is unreachable. -/
theorem reconcile_namespace_panic
    (src : NooBaaSource) (env : ReconcileEnv) (st : State) (m : Metrics) :
    (src.metadata.«namespace» = none →
      (reconcile src env st m).outcome =
        ReconcileOutcome.panicked "NooBaaSource is namespaced" ∧
      ∀ e, (reconcile src env st m).outcome ≠ ReconcileOutcome.err e) ∧
    (∀ ns, src.metadata.«namespace» = some ns →
      ∀ msg, (reconcile src env st m).outcome ≠
        ReconcileOutcome.panicked msg) := by
  rcases src with ⟨⟨nm, nsopt⟩, sp, stt⟩
  rcases env with ⟨now, em, pr, pubr⟩
  cases nsopt <;> cases pr <;> cases pubr <;>
    by_cases hb : strContains sp.name "bad" <;>
    simp [reconcile, hb]

/-- C10 witness: the theorem instantiated at a namespace-less instance. -/
theorem reconcile_namespace_panic_w :
    (reconcile
        { metadata := { name := "n", «namespace» := none }
          spec := mkSpec "good-source-1", status := none }
        envOk st0 m0).outcome =
      ReconcileOutcome.panicked "NooBaaSource is namespaced" :=
  ((reconcile_namespace_panic
      { metadata := { name := "n", «namespace» := none }
        spec := mkSpec "good-source-1", status := none }
      envOk st0 m0).1 rfl).1

end RustyNail
